import Mathlib

/-!
Verification of the Xiaomi vacuum-cleaner Telegram bot
(src/xvc_helper.py and src/main.py) against its natural-language
specification.  The Python code is shallowly embedded: the raw `miio`
vacuum is an oracle structure recording how each underlying device call
would respond, adapter methods become functions of that oracle that
also return the list of protocol commands they issue, and the Telegram
conversation handler becomes an explicit step function on an optional
conversation state.
-/

namespace XVC

/-- A transport-layer fault of the `miio` library (`DeviceException`). -/
inductive DeviceException
  | deviceError
  deriving DecidableEq, Repr

/-- Modelled from the spec: `CleaningZone` (xvc/cleaning_zone.py is not under
src/) — a rectangular cleaning region whose `get_list` yields its
device-native coordinate list (two opposite corner coordinates). -/
structure CleaningZone where
  coords : List Int
  deriving DecidableEq, Repr

/-- Coordinate list sent to the device for one zone (`zone.get_list()`). -/
def CleaningZone.get_list (z : CleaningZone) : List Int := z.coords

/-- Modelled from the spec: the `FanLevel` enumeration of xvc/fan_level.py
(not under src/): Quiet=38, Balanced=60, Turbo=75, Max=100, Mob=105. -/
inductive FanLevel
  | quiet
  | balanced
  | turbo
  | max
  | mob
  deriving DecidableEq, Repr

/-- Numeric device parameter of a fan level (`fan_level.value`). -/
def FanLevel.value : FanLevel → Nat
  | .quiet => 38
  | .balanced => 60
  | .turbo => 75
  | .max => 100
  | .mob => 105

/-- Display name of a fan level (`value.name`). -/
def FanLevel.name : FanLevel → String
  | .quiet => "Quiet"
  | .balanced => "Balanced"
  | .turbo => "Turbo"
  | .max => "Max"
  | .mob => "Mob"

/-- Iteration order of the enumeration members. -/
def FanLevel.members : List FanLevel :=
  [.quiet, .balanced, .turbo, .max, .mob]

/-- Lookup of an enumeration member by its name (`FanLevel[level]`),
`none` when the name is unknown (Python would raise `KeyError`). -/
def FanLevel.fromName (s : String) : Option FanLevel :=
  FanLevel.members.find? (fun l => l.name == s)

/-- A raw protocol command issued to the vacuum by the live adapter. -/
inductive DevCmd
  | pause
  | home
  | zonedClean (zones_list : List (List Int))
  | setFanSpeed (speed : Nat)
  deriving DecidableEq, Repr

/-- Oracle for the raw `miio.Vacuum` object: how each underlying device
call would respond.  `discoverOk i` tells whether the i-th
`do_discover()` attempt succeeds (`false` means it raises
`DeviceException`); the remaining fields give either the raw
acknowledgment list returned by the call or the transport exception it
raises; `stateResp` is the `.state` string of a successful status query. -/
structure Vacuum where
  discoverOk : Nat → Bool
  pauseResp : Except DeviceException (List String)
  homeResp : Except DeviceException (List String)
  zonedCleanResp : List (List Int) → Except DeviceException (List String)
  setFanSpeedResp : Nat → Except DeviceException (List String)
  stateResp : Except DeviceException String

/-- The single recognized success acknowledgment
(`XVCHelperBase.RESPONSE_SUCCEEDED = ['ok']`). -/
def RESPONSE_SUCCEEDED : List String := ["ok"]

/-- Error raised when the connection probe of `XVCHelper.__init__` fails. -/
inductive ConnError
  | connectionError
  deriving DecidableEq, Repr

/-- The `for _ in range(3)` discovery loop of `XVCHelper.__init__`:
walks the attempt indices in order and returns the index of the first
successful `do_discover()`, or `none` when every attempt raises. -/
def checkConnection (v : Vacuum) : List Nat → Option Nat
  | [] => none
  | i :: rest => if v.discoverOk i then some i else checkConnection v rest

/-- Construction of the live adapter (`XVCHelper.__init__`): up to 3
discovery attempts; if all raise, the loop's `else` clause raises
`ConnectionError`. -/
def XVCHelper.init (v : Vacuum) : Except ConnError Unit :=
  match checkConnection v (List.range 3) with
  | some _ => .ok ()
  | none => .error .connectionError

/-- Number of `do_discover()` calls the construction probe performs. -/
def XVCHelper.discoveryAttempts (v : Vacuum) : Nat :=
  match checkConnection v (List.range 3) with
  | some i => i + 1
  | none => 3

/-- `XVCHelper.status`: the only adapter operation with a
`try/except DeviceException` handler; on a raised exception it returns
`(False, None)`, so the overall call never raises (always `.ok`). -/
def XVCHelper.status (v : Vacuum) : Except DeviceException (Bool × Option String) :=
  match v.stateResp with
  | .ok s => .ok (true, some s)
  | .error _ => .ok (false, none)

/-- `XVCHelper.pause`: issues the pause command and compares the raw
acknowledgment with `RESPONSE_SUCCEEDED`; no exception handler, so a
transport exception propagates.  Second component: commands issued. -/
def XVCHelper.pause (v : Vacuum) : Except DeviceException Bool × List DevCmd :=
  match v.pauseResp with
  | .ok result => (.ok (result == RESPONSE_SUCCEEDED), [DevCmd.pause])
  | .error e => (.error e, [DevCmd.pause])

/-- `XVCHelper.home`: issues the home command and compares the raw
acknowledgment with `RESPONSE_SUCCEEDED`; no exception handler. -/
def XVCHelper.home (v : Vacuum) : Except DeviceException Bool × List DevCmd :=
  match v.homeResp with
  | .ok result => (.ok (result == RESPONSE_SUCCEEDED), [DevCmd.home])
  | .error e => (.error e, [DevCmd.home])

/-- `XVCHelper.set_fan_level`: sends the level's numeric value and
compares the raw acknowledgment with `RESPONSE_SUCCEEDED`; no handler. -/
def XVCHelper.set_fan_level (v : Vacuum) (fan_level : FanLevel) :
    Except DeviceException Bool × List DevCmd :=
  match v.setFanSpeedResp fan_level.value with
  | .ok result => (.ok (result == RESPONSE_SUCCEEDED), [DevCmd.setFanSpeed fan_level.value])
  | .error e => (.error e, [DevCmd.setFanSpeed fan_level.value])

/-- `XVCHelper.start_zone_cleaning`: first calls `self.pause()`
(discarding its boolean result, but a raised transport exception
propagates), then issues the zoned-clean command with the zones'
coordinate lists and compares its acknowledgment with
`RESPONSE_SUCCEEDED`. -/
def XVCHelper.start_zone_cleaning (v : Vacuum) (zones : List CleaningZone) :
    Except DeviceException Bool × List DevCmd :=
  match XVCHelper.pause v with
  | (.error e, log) => (.error e, log)
  | (.ok _, log) =>
    match v.zonedCleanResp (zones.map CleaningZone.get_list) with
    | .ok result =>
      (.ok (result == RESPONSE_SUCCEEDED),
        log ++ [DevCmd.zonedClean (zones.map CleaningZone.get_list)])
    | .error e =>
      (.error e, log ++ [DevCmd.zonedClean (zones.map CleaningZone.get_list)])

/-- `XVCHelperSimulator.status`: logs and returns `(True, 'Simulation')`;
no device traffic, never raises. -/
def XVCHelperSimulator.status : Except DeviceException (Bool × Option String) :=
  .ok (true, some "Simulation")

/-- `XVCHelperSimulator.pause`: logs and returns `True`; issues no
device command. -/
def XVCHelperSimulator.pause : Except DeviceException Bool × List DevCmd :=
  (.ok true, [])

/-- `XVCHelperSimulator.home`: logs and returns `True`; issues no
device command. -/
def XVCHelperSimulator.home : Except DeviceException Bool × List DevCmd :=
  (.ok true, [])

/-- `XVCHelperSimulator.start_zone_cleaning`: logs the call and each
zone, then returns `True`; it issues no device command at all — in
particular it does not call its own `pause`. -/
def XVCHelperSimulator.start_zone_cleaning (zones : List CleaningZone) :
    Except DeviceException Bool × List DevCmd :=
  (.ok true, [])

/-- `XVCHelperSimulator.set_fan_level`: logs and returns `True`;
issues no device command. -/
def XVCHelperSimulator.set_fan_level (fan_level : FanLevel) :
    Except DeviceException Bool × List DevCmd :=
  (.ok true, [])

/-! ### Python class-attribute lookup (src/xvc_helper.py namespaces)

main.py evaluates `XVCHelper.FanLevel` (line 15) and
`XVCHelperBase.FanLevel` (line 153).  Python resolves such an access by
searching the class dictionaries along the method resolution order, so
we record the names each class body of src/xvc_helper.py defines. -/

/-- Names defined in the class body of `XVCHelperBase`. -/
def xvcHelperBaseDict : List String :=
  ["RESPONSE_SUCCEEDED", "status", "pause", "home", "start_zone_cleaning", "set_fan_level"]

/-- Names defined in the class body of `XVCHelper`. -/
def xvcHelperDict : List String :=
  ["__init__", "status", "pause", "home", "start_zone_cleaning", "set_fan_level"]

/-- Names defined in the class body of `XVCHelperSimulator`. -/
def xvcHelperSimulatorDict : List String :=
  ["__init__", "status", "pause", "home", "start_zone_cleaning", "set_fan_level"]

/-- Module-level names of src/xvc_helper.py: its imports and the three
classes it defines.  `FanLevel` appears here (imported from
xvc.fan_level) but in no class dictionary. -/
def xvcHelperModuleDict : List String :=
  ["logging", "abstractmethod", "ABCMeta", "List", "Tuple", "Vacuum", "DeviceException",
   "CleaningZone", "FanLevel", "XVCHelperBase", "XVCHelperSimulator", "XVCHelper"]

/-- The classes defined by src/xvc_helper.py. -/
inductive PyClass
  | xvcHelperBase
  | xvcHelper
  | xvcHelperSimulator
  deriving DecidableEq, Repr

/-- Class dictionaries along each class's method resolution order
(`object` contributes no attribute named like any accessed here). -/
def classMro : PyClass → List (List String)
  | .xvcHelperBase => [xvcHelperBaseDict]
  | .xvcHelper => [xvcHelperDict, xvcHelperBaseDict]
  | .xvcHelperSimulator => [xvcHelperSimulatorDict, xvcHelperBaseDict]

/-- Whether a class-attribute access `C.attr` finds the attribute. -/
def classAttrFound (c : PyClass) (attr : String) : Bool :=
  (classMro c).any (fun d => d.contains attr)

/-- Python exceptions raised by the embedded main.py code. -/
inductive PyErr
  | attributeError
  | keyError
  deriving DecidableEq, Repr

/-- main.py line 15, `FAN_BUTTONS = [value.name for value in XVCHelper.FanLevel]`:
evaluating `XVCHelper.FanLevel` is a class-attribute lookup; if it were
found the comprehension would collect the member names, otherwise the
access raises `AttributeError` (at module import time). -/
def FAN_BUTTONS : Except PyErr (List String) :=
  if classAttrFound .xvcHelper "FanLevel" then
    .ok (FanLevel.members.map FanLevel.name)
  else
    .error .attributeError

/-- main.py line 153, `XVCHelperBase.FanLevel[level]`: a class-attribute
lookup of `FanLevel` on `XVCHelperBase` followed by an enum member
lookup by name (which raises `KeyError` for an unknown name). -/
def fanLevelViaClassAttr (level : String) : Except PyErr FanLevel :=
  if classAttrFound .xvcHelperBase "FanLevel" then
    match FanLevel.fromName level with
    | some l => .ok l
    | none => .error .keyError
  else
    .error .attributeError

/-! ### ASCII case operations (Python str.upper / str.title)

main.py compares the zone keyboard labels (`zone.title()`) with the
upper-cased user input (`zone.upper()`); we embed the two Python string
methods for the ASCII range. -/

/-- Python `str.upper` on one ASCII character. -/
def upperChar (c : Char) : Char :=
  if 97 ≤ c.toNat ∧ c.toNat ≤ 122 then Char.ofNat (c.toNat - 32) else c

/-- Python `str.lower` on one ASCII character. -/
def lowerChar (c : Char) : Char :=
  if 65 ≤ c.toNat ∧ c.toNat ≤ 90 then Char.ofNat (c.toNat + 32) else c

/-- Whether a character is an ASCII letter (word-continuation test of
`str.title`). -/
def isAsciiAlpha (c : Char) : Bool :=
  decide ((65 ≤ c.toNat ∧ c.toNat ≤ 90) ∨ (97 ≤ c.toNat ∧ c.toNat ≤ 122))

/-- Python `str.title` character stream: upper-case a letter that starts
a word, lower-case the rest; the flag says whether the previous
character was a letter. -/
def titleChars : Bool → List Char → List Char
  | _, [] => []
  | prevAlpha, c :: rest =>
    (if prevAlpha then lowerChar c else upperChar c) :: titleChars (isAsciiAlpha c) rest

/-- Python `str.title` (ASCII fragment). -/
def asciiTitle (s : String) : String := String.mk (titleChars false s.data)

/-- Python `str.upper` (ASCII fragment). -/
def asciiUpper (s : String) : String := String.mk (s.data.map upperChar)

/-! ### Session state machine (src/main.py)

The Telegram `ConversationHandler` of main.py is embedded as a step
function on an optional conversation state (`none` = no active
conversation / `ConversationHandler.END`).  Each `XVCBot` handler
becomes a function returning the next state, the ordered list of
observable actions it performs (device calls and replies, in program
order), and the Python exception it raises, if any. -/

/-- Bot conversation states (`MAIN_MENU, SELECT_FAN, SELECT_ZONE = range(3)`). -/
inductive ConvState
  | mainMenu
  | selectFan
  | selectZone
  deriving DecidableEq, Repr

/-- An inbound Telegram update for the conversation: the /start command,
the /cancel command, or a plain text message. -/
inductive Msg
  | start
  | cancel
  | text (s : String)
  deriving DecidableEq, Repr

/-- Reply markup attached to a reply (`ReplyKeyboardMarkup` built by
`build_menu`, or `ReplyKeyboardRemove`). -/
inductive Markup
  | keyboard (buttons : List String)
  | removeKeyboard
  | noMarkup
  deriving DecidableEq, Repr

/-- A device-adapter operation invoked by the bot. -/
inductive DeviceOp
  | getStatus
  | home
  | setFanLevel (l : FanLevel)
  | startZoneCleaning (zones : List CleaningZone)
  deriving DecidableEq, Repr

/-- An observable action of a handler, in program order. -/
inductive Event
  | reply (text : String) (markup : Markup)
  | devCall (op : DeviceOp)
  deriving DecidableEq, Repr

/-- Results the bot's device adapter returns for each operation — the
Device Adapter contract as consumed by main.py (`vacuum: XVCHelperBase`). -/
structure AdapterResults where
  statusRes : Bool × Option String
  homeRes : Bool
  setFanRes : FanLevel → Bool
  startZoneRes : List CleaningZone → Bool

/-- The bot's construction parameters (`XVCBot.__init__`): the vacuum
adapter and the zone registry (dict from zone name to rectangles). -/
structure XVCBot where
  vacuum : AdapterResults
  zones : List (String × List CleaningZone)

/-- Outcome of dispatching one update: stored next state, observable
actions, and the exception the handler raised, if any. -/
structure StepResult where
  next : Option ConvState
  events : List Event
  err : Option PyErr
  deriving DecidableEq, Repr

/-- `MAIN_BUTTONS = ['Status', 'Home', 'ZoneCleaning']` (main.py line 14). -/
def MAIN_BUTTONS : List String := ["Status", "Home", "ZoneCleaning"]

/-- Modelled from the spec: the value `FAN_BUTTONS` of main.py line 15
evaluates to when the `FanLevel` enumeration (xvc/fan_level.py, not
under src/) is reachable — the member names in declaration order.  The
class-attribute access the source actually uses is settled separately
by `FAN_BUTTONS` and `classAttrFound` above. -/
def fanButtonNames : List String := FanLevel.members.map FanLevel.name

/-- `LIST_OF_ADMINS` (main.py line 19). -/
def LIST_OF_ADMINS : List Int := [110086856, 829623593]

/-- The denial reply of the `restricted` decorator:
`'Access denied for you ({})!'.format(user_id)`. -/
def accessDeniedMsg (user_id : Int) : String :=
  "Access denied for you (" ++ toString user_id ++ ")!"

/-- The `restricted` decorator: run the wrapped handler only when the
sender is in `LIST_OF_ADMINS`; otherwise reply with the denial message
and return `None`, which leaves the conversation state unchanged. -/
def restricted (user_id : Int) (current : Option ConvState) (func : Unit → StepResult) :
    StepResult :=
  if LIST_OF_ADMINS.contains user_id then func ()
  else { next := current, events := [Event.reply (accessDeniedMsg user_id) Markup.noMarkup],
         err := none }

/-- `XVCBot.__finish`: reply with the message, remove the custom
keyboard, and return `ConversationHandler.END`. -/
def finishEvents (message : String) : List Event :=
  [Event.reply message Markup.removeKeyboard]

/-- Labels of the zone keyboard: `[zone.title() for zone in self.__zones.keys()]`. -/
def zoneTitles (bot : XVCBot) : List String :=
  bot.zones.map (fun z => asciiTitle z.1)

/-- Python dict indexing `self.__zones[key]` on the zone registry:
`none` models a raised `KeyError`. -/
def zoneLookup : List (String × List CleaningZone) → String → Option (List CleaningZone)
  | [], _ => none
  | (k, zs) :: rest, key => if k == key then some zs else zoneLookup rest key

/-- `XVCBot.start` (wrapped by `restricted`): present the main menu and
move to `MAIN_MENU`. -/
def XVCBot.start (user_id : Int) (current : Option ConvState) : StepResult :=
  restricted user_id current (fun _ =>
    { next := some ConvState.mainMenu,
      events := [Event.reply "Main menu" (Markup.keyboard MAIN_BUTTONS)],
      err := none })

/-- Value of Python `'State: {}'.format(state)` for an optional state. -/
def formatState : Option String → String
  | some s => s
  | none => "None"

/-- `XVCBot.status`: query the adapter, reply with the state on success
or `'Error'` on failure, and end the conversation. -/
def XVCBot.status (bot : XVCBot) : StepResult :=
  let result := bot.vacuum.statusRes.1
  let state := bot.vacuum.statusRes.2
  let message := if result then "State: " ++ formatState state else "Error"
  { next := none,
    events := Event.devCall DeviceOp.getStatus :: finishEvents message,
    err := none }

/-- `XVCBot.home`: send the vacuum home, reply with the success text or
`'Error'`, and end the conversation. -/
def XVCBot.home (bot : XVCBot) : StepResult :=
  let message :=
    if bot.vacuum.homeRes then "Vacuum cleaner goes back to the dock..." else "Error"
  { next := none,
    events := Event.devCall DeviceOp.home :: finishEvents message,
    err := none }

/-- `XVCBot.select_fan`: present the fan-speed keyboard and move to
`SELECT_FAN`. -/
def XVCBot.select_fan : StepResult :=
  { next := some ConvState.selectFan,
    events := [Event.reply "Select fan speed!" (Markup.keyboard fanButtonNames)],
    err := none }

/-- `XVCBot.select_zone`: resolve the received text to a fan level
(source: `XVCHelperBase.FanLevel[level]`; the member lookup is modelled
from the spec because xvc/fan_level.py is not under src/, and the
class-attribute path by which the source reaches it is settled by
`fanLevelViaClassAttr`), call `set_fan_level` — its boolean result is
discarded — then present the zone keyboard and move to `SELECT_ZONE`.
An unknown name raises `KeyError` before any device call. -/
def XVCBot.select_zone (bot : XVCBot) (level : String) : StepResult :=
  match FanLevel.fromName level with
  | none => { next := none, events := [], err := some PyErr.keyError }
  | some l =>
    { next := some ConvState.selectZone,
      events := [Event.devCall (DeviceOp.setFanLevel l),
                 Event.reply "Select zone!" (Markup.keyboard (zoneTitles bot))],
      err := none }

/-- `XVCBot.cleaning`: index the zone registry with the upper-cased
text (`self.__zones[zone.upper()]`, raising `KeyError` when absent,
before any device call), start zone cleaning on the rectangles, reply
with the success text or `'Error'`, and end the conversation. -/
def XVCBot.cleaning (bot : XVCBot) (zone : String) : StepResult :=
  match zoneLookup bot.zones (asciiUpper zone) with
  | none => { next := none, events := [], err := some PyErr.keyError }
  | some rects =>
    let message :=
      if bot.vacuum.startZoneRes rects then "Start cleaning " ++ zone ++ "..." else "Error"
    { next := none,
      events := Event.devCall (DeviceOp.startZoneCleaning rects) :: finishEvents message,
      err := none }

/-- `XVCBot.cancel`: reply `'Canceled...'` and end the conversation. -/
def XVCBot.cancel : StepResult :=
  { next := none, events := finishEvents "Canceled...", err := none }

/-- Dispatcher treatment of a raised handler exception: the updater's
error handler is invoked and the stored conversation state is left
unchanged. -/
def handleRaise (sess : Option ConvState) (r : StepResult) : StepResult :=
  match r.err with
  | some _ => { next := sess, events := r.events, err := r.err }
  | none => r

/-- One dispatch round of the `ConversationHandler` of main.py: with no
active conversation only the entry point (`/start`) fires; with an
active conversation the current state's `RegexHandler`s are tried
(exact-match patterns built from the button label lists) and otherwise
the `/cancel` fallback; an update matching nothing leaves the state
unchanged and performs no action. -/
def step (bot : XVCBot) (user_id : Int) (sess : Option ConvState) (m : Msg) : StepResult :=
  match sess with
  | none =>
    match m with
    | .start => XVCBot.start user_id none
    | _ => { next := none, events := [], err := none }
  | some st =>
    match m with
    | .start => { next := some st, events := [], err := none }
    | .cancel => XVCBot.cancel
    | .text t =>
      match st with
      | .mainMenu =>
        if t == "Status" then XVCBot.status bot
        else if t == "Home" then XVCBot.home bot
        else if t == "ZoneCleaning" then XVCBot.select_fan
        else { next := some st, events := [], err := none }
      | .selectFan =>
        if fanButtonNames.contains t then handleRaise (some st) (XVCBot.select_zone bot t)
        else { next := some st, events := [], err := none }
      | .selectZone =>
        if (zoneTitles bot).contains t then handleRaise (some st) (XVCBot.cleaning bot t)
        else { next := some st, events := [], err := none }

/-- Run a message sequence from a given conversation state. -/
def runFrom (bot : XVCBot) (user_id : Int) : Option ConvState → List Msg → Option ConvState
  | sess, [] => sess
  | sess, m :: rest => runFrom bot user_id (step bot user_id sess m).next rest

/-- Conversation state after a message sequence for one user, starting
with no active conversation. -/
def runSession (bot : XVCBot) (user_id : Int) (msgs : List Msg) : Option ConvState :=
  runFrom bot user_id none msgs

/-- All observable actions of a message sequence, in order. -/
def runEventsFrom (bot : XVCBot) (user_id : Int) : Option ConvState → List Msg → List Event
  | _, [] => []
  | sess, m :: rest =>
    (step bot user_id sess m).events ++
      runEventsFrom bot user_id (step bot user_id sess m).next rest

/-! ### Concrete sample data used by witnesses and counterexamples -/

/-- A sample cleaning zone in device-native coordinates. -/
def kitchenZone : CleaningZone := ⟨[25000, 25000, 30000, 30000]⟩

/-- A vacuum oracle whose second discovery attempt succeeds and whose
every command is acknowledged with `['ok']`. -/
def sampleVacuum : Vacuum :=
  { discoverOk := fun n => n == 1
    pauseResp := .ok ["ok"]
    homeResp := .ok ["ok"]
    zonedCleanResp := fun _ => .ok ["ok"]
    setFanSpeedResp := fun _ => .ok ["ok"]
    stateResp := .ok "Charging" }

/-- A vacuum oracle whose every call raises `DeviceException`. -/
def faultyVacuum : Vacuum :=
  { discoverOk := fun _ => false
    pauseResp := .error .deviceError
    homeResp := .error .deviceError
    zonedCleanResp := fun _ => .error .deviceError
    setFanSpeedResp := fun _ => .error .deviceError
    stateResp := .error .deviceError }

/-- A vacuum oracle whose pause succeeds but whose zoned-clean and
set-fan-speed calls raise. -/
def mixedVacuum : Vacuum :=
  { discoverOk := fun _ => true
    pauseResp := .ok ["ok"]
    homeResp := .ok ["retry"]
    zonedCleanResp := fun _ => .error .deviceError
    setFanSpeedResp := fun _ => .error .deviceError
    stateResp := .ok "Cleaning" }

/-- An adapter whose every operation reports success. -/
def sampleAdapter : AdapterResults :=
  { statusRes := (true, some "Charging")
    homeRes := true
    setFanRes := fun _ => true
    startZoneRes := fun _ => true }

/-- An adapter whose every operation reports failure. -/
def failingAdapter : AdapterResults :=
  { statusRes := (false, none)
    homeRes := false
    setFanRes := fun _ => false
    startZoneRes := fun _ => false }

/-- A bot over the all-success adapter with an upper-case registry key. -/
def sampleBot : XVCBot :=
  { vacuum := sampleAdapter, zones := [("KITCHEN", [kitchenZone])] }

/-- A bot over the all-failure adapter. -/
def failBot : XVCBot :=
  { vacuum := failingAdapter, zones := [("KITCHEN", [kitchenZone])] }

/-- A bot whose registry key is stored in title case. -/
def titleBot : XVCBot :=
  { vacuum := sampleAdapter, zones := [("Kitchen", [kitchenZone])] }

/-! ### Helper lemmas -/

theorem toNat_ofNat_valid (n : Nat) (h : n.isValidChar) : (Char.ofNat n).toNat = n := by
  simp [Char.ofNat, h, Char.ofNatAux, Char.toNat, UInt32.toNat, BitVec.toNat_ofNatLt]

theorem upperChar_idem (c : Char) : upperChar (upperChar c) = upperChar c := by
  by_cases h : 97 ≤ c.toNat ∧ c.toNat ≤ 122
  · have hv : Nat.isValidChar (c.toNat - 32) := Or.inl (by omega)
    have h1 : upperChar c = Char.ofNat (c.toNat - 32) := by simp [upperChar, h]
    have h2 : (upperChar c).toNat = c.toNat - 32 := by rw [h1]; exact toNat_ofNat_valid _ hv
    have h3 : ¬ (97 ≤ (upperChar c).toNat ∧ (upperChar c).toNat ≤ 122) := by rw [h2]; omega
    conv_lhs => rw [upperChar]
    simp [h3]
  · simp [upperChar, h]

theorem upperChar_lowerChar (c : Char) : upperChar (lowerChar c) = upperChar c := by
  by_cases h : 65 ≤ c.toNat ∧ c.toNat ≤ 90
  · have hv : Nat.isValidChar (c.toNat + 32) := Or.inl (by omega)
    have h1 : lowerChar c = Char.ofNat (c.toNat + 32) := by simp [lowerChar, h]
    have h2 : (lowerChar c).toNat = c.toNat + 32 := by rw [h1]; exact toNat_ofNat_valid _ hv
    have h3 : 97 ≤ (lowerChar c).toNat ∧ (lowerChar c).toNat ≤ 122 := by rw [h2]; omega
    have h4 : ¬ (97 ≤ c.toNat ∧ c.toNat ≤ 122) := by omega
    conv_lhs => rw [upperChar]
    rw [if_pos h3, h2, show c.toNat + 32 - 32 = c.toNat from by omega, Char.ofNat_toNat]
    simp [upperChar, h4]
  · simp [lowerChar, h]

theorem map_upperChar_titleChars (b : Bool) (cs : List Char) :
    (titleChars b cs).map upperChar = cs.map upperChar := by
  induction cs generalizing b with
  | nil => rfl
  | cons c rest ih =>
    cases b <;> simp [titleChars, ih, upperChar_lowerChar, upperChar_idem]

theorem asciiUpper_asciiTitle (s : String) : asciiUpper (asciiTitle s) = asciiUpper s := by
  simp [asciiUpper, asciiTitle, map_upperChar_titleChars]

theorem zoneLookup_isSome (zones : List (String × List CleaningZone)) (k : String)
    (h : k ∈ zones.map Prod.fst) : ∃ r, zoneLookup zones k = some r := by
  induction zones with
  | nil => simp at h
  | cons p rest ih =>
    obtain ⟨k1, zs⟩ := p
    by_cases hk : k1 == k
    · exact ⟨zs, by simp [zoneLookup, hk]⟩
    · simp only [List.map_cons, List.mem_cons] at h
      rcases h with h | h
      · exact absurd (by simp [h] : (k1 == k) = true) (by simpa using hk)
      · rcases ih h with ⟨r, hr⟩
        exact ⟨r, by simp [zoneLookup, hk, hr]⟩

theorem fromName_of_contains (t : String) (h : fanButtonNames.contains t = true) :
    ∃ l, FanLevel.fromName t = some l ∧ FanLevel.name l = t := by
  have hmem : t ∈ fanButtonNames := by simpa using h
  simp [fanButtonNames, FanLevel.members, FanLevel.name] at hmem
  rcases hmem with h | h | h | h | h <;> subst h
  · exact ⟨FanLevel.quiet, by decide, rfl⟩
  · exact ⟨FanLevel.balanced, by decide, rfl⟩
  · exact ⟨FanLevel.turbo, by decide, rfl⟩
  · exact ⟨FanLevel.max, by decide, rfl⟩
  · exact ⟨FanLevel.mob, by decide, rfl⟩

theorem runFrom_append (bot : XVCBot) (user_id : Int) (sess : Option ConvState)
    (l1 l2 : List Msg) :
    runFrom bot user_id sess (l1 ++ l2) = runFrom bot user_id (runFrom bot user_id sess l1) l2 := by
  induction l1 generalizing sess with
  | nil => rfl
  | cons m rest ih => simp [runFrom, ih]

theorem step_next_selectZone (bot : XVCBot) (user_id : Int) (sess : Option ConvState) (m : Msg)
    (h : (step bot user_id sess m).next = some ConvState.selectZone) :
    sess = some ConvState.selectZone
    ∨ ∃ t l, sess = some ConvState.selectFan ∧ m = Msg.text t
        ∧ fanButtonNames.contains t = true ∧ FanLevel.fromName t = some l
        ∧ step bot user_id sess m =
            { next := some ConvState.selectZone,
              events := [Event.devCall (DeviceOp.setFanLevel l),
                         Event.reply "Select zone!" (Markup.keyboard (zoneTitles bot))],
              err := none } := by
  match sess, m with
  | none, .start =>
    exfalso
    simp only [step, XVCBot.start, restricted] at h
    split at h <;> simp at h
  | none, .cancel => exact absurd h (by simp [step])
  | none, .text t => exact absurd h (by simp [step])
  | some st, .start =>
    left
    simp only [step] at h
    simpa using h
  | some st, .cancel => exact absurd h (by simp [step, XVCBot.cancel])
  | some ConvState.mainMenu, .text t =>
    exfalso
    simp only [step] at h
    split_ifs at h <;>
      simp [XVCBot.status, XVCBot.home, XVCBot.select_fan] at h
  | some ConvState.selectFan, .text t =>
    by_cases hc : fanButtonNames.contains t
    · rcases fromName_of_contains t hc with ⟨l, hf, _⟩
      have hc2 : t ∈ fanButtonNames := by simpa using hc
      right
      exact ⟨t, l, rfl, rfl, hc, hf, by
        simp [step, hc2, XVCBot.select_zone, hf, handleRaise]⟩
    · exfalso
      have hc2 : t ∉ fanButtonNames := by simpa using hc
      simp [step, hc2] at h
  | some ConvState.selectZone, .text t => left; rfl

theorem step_none_nonadmin (bot : XVCBot) (user_id : Int)
    (h : LIST_OF_ADMINS.contains user_id = false) (m : Msg) :
    (step bot user_id none m).next = none
    ∧ ∀ op, Event.devCall op ∉ (step bot user_id none m).events := by
  have h2 : user_id ∉ LIST_OF_ADMINS := by simpa using h
  cases m <;> simp [step, XVCBot.start, restricted, h2]

theorem runFrom_none_nonadmin (bot : XVCBot) (user_id : Int)
    (h : LIST_OF_ADMINS.contains user_id = false) (msgs : List Msg) :
    runFrom bot user_id none msgs = none := by
  induction msgs with
  | nil => rfl
  | cons m rest ih =>
    rw [runFrom, (step_none_nonadmin bot user_id h m).1]
    exact ih

theorem runEvents_none_nonadmin (bot : XVCBot) (user_id : Int)
    (h : LIST_OF_ADMINS.contains user_id = false) (msgs : List Msg) :
    ∀ op, Event.devCall op ∉ runEventsFrom bot user_id none msgs := by
  induction msgs with
  | nil => intro op; simp [runEventsFrom]
  | cons m rest ih =>
    intro op
    rw [runEventsFrom, (step_none_nonadmin bot user_id h m).1]
    simp only [List.mem_append, not_or]
    exact ⟨(step_none_nonadmin bot user_id h m).2 op, ih op⟩

/-! ### Claim theorems -/

/-- C1 (counterexample): the claim fails for the simulator — on the
non-empty zone list `[kitchenZone]`, `XVCHelperSimulator.start_zone_cleaning`
issues no device command at all, in particular no pause command. -/
theorem xvc_c1_simulator_counterexample :
    (XVCHelperSimulator.start_zone_cleaning [kitchenZone]).2 = []
    ∧ DevCmd.pause ∉ (XVCHelperSimulator.start_zone_cleaning [kitchenZone]).2 := by
  constructor
  · rfl
  · simp [XVCHelperSimulator.start_zone_cleaning]

/-- C1 (amended): for every vacuum oracle and every zone list, the live
adapter `XVCHelper.start_zone_cleaning` issues the pause command first
and issues the zoned-clean command, when at all, only after the pause;
the simulator `XVCHelperSimulator.start_zone_cleaning` issues no device
command (it only logs and reports success), in particular no pause. -/
theorem xvc_c1_pause_before_zoned_clean (v : Vacuum) (zones : List CleaningZone) :
    ((XVCHelper.start_zone_cleaning v zones).2 = [DevCmd.pause]
      ∨ (XVCHelper.start_zone_cleaning v zones).2 =
          [DevCmd.pause, DevCmd.zonedClean (zones.map CleaningZone.get_list)])
    ∧ ∀ zs, (XVCHelperSimulator.start_zone_cleaning zs).2 = [] := by
  constructor
  · unfold XVCHelper.start_zone_cleaning XVCHelper.pause
    cases v.pauseResp <;> simp
    cases v.zonedCleanResp (zones.map CleaningZone.get_list) <;> simp
  · intro zs; rfl

/-- C2: neither `XVCHelper` nor `XVCHelperBase` carries a `FanLevel`
class attribute (the name exists in src/xvc_helper.py only at module
level, as an import), so building `FAN_BUTTONS` (main.py line 15) and
the fan lookup of `select_zone` (main.py line 153) raise
`AttributeError` on every run. -/
theorem xvc_c2_fanlevel_attribute_missing :
    classAttrFound PyClass.xvcHelper "FanLevel" = false
    ∧ classAttrFound PyClass.xvcHelperBase "FanLevel" = false
    ∧ xvcHelperModuleDict.contains "FanLevel" = true
    ∧ FAN_BUTTONS = Except.error PyErr.attributeError
    ∧ ∀ level, fanLevelViaClassAttr level = Except.error PyErr.attributeError := by
  refine ⟨by decide, by decide, by decide, rfl, ?_⟩
  intro level
  have h : classAttrFound PyClass.xvcHelperBase "FanLevel" = false := by decide
  simp [fanLevelViaClassAttr, h]

/-- C3 (counterexample): the claim fails for `home` — on a vacuum whose
home call raises, `XVCHelper.home` propagates the raw transport
exception instead of normalizing it to a Failure result. -/
theorem xvc_c3_home_propagates_counterexample :
    (XVCHelper.home faultyVacuum).1 = Except.error DeviceException.deviceError := rfl

/-- C3 (amended): only `status` catches `DeviceException` (returning the
Failure pair `(false, none)` and never raising); `pause`, `home`,
`set_fan_level` and `start_zone_cleaning` have no handler, so a raised
transport exception propagates out of the adapter unchanged. -/
theorem xvc_c3_exception_policy (v : Vacuum) (e : DeviceException) :
    (v.stateResp = .error e → XVCHelper.status v = .ok (false, none))
    ∧ (∃ r, XVCHelper.status v = .ok r)
    ∧ (v.pauseResp = .error e → (XVCHelper.pause v).1 = .error e)
    ∧ (v.homeResp = .error e → (XVCHelper.home v).1 = .error e)
    ∧ (∀ l, v.setFanSpeedResp (FanLevel.value l) = .error e →
        (XVCHelper.set_fan_level v l).1 = .error e)
    ∧ (∀ zones, v.pauseResp = .error e →
        (XVCHelper.start_zone_cleaning v zones).1 = .error e)
    ∧ (∀ zones pauseAck, v.pauseResp = .ok pauseAck →
        v.zonedCleanResp (zones.map CleaningZone.get_list) = .error e →
        (XVCHelper.start_zone_cleaning v zones).1 = .error e) := by
  refine ⟨?_, ?_, ?_, ?_, ?_, ?_, ?_⟩
  · intro h; simp [XVCHelper.status, h]
  · unfold XVCHelper.status
    cases v.stateResp <;> simp
  · intro h; simp [XVCHelper.pause, h]
  · intro h; simp [XVCHelper.home, h]
  · intro l h; simp [XVCHelper.set_fan_level, h]
  · intro zones h
    simp [XVCHelper.start_zone_cleaning, XVCHelper.pause, h]
  · intro zones pauseAck hp hz
    simp [XVCHelper.start_zone_cleaning, XVCHelper.pause, hp, hz]

/-- C3 witness: the amended exception policy at concrete vacuums. -/
theorem xvc_c3_exception_policy_witness :
    XVCHelper.status faultyVacuum = .ok (false, none)
    ∧ (XVCHelper.pause faultyVacuum).1 = .error DeviceException.deviceError
    ∧ (XVCHelper.set_fan_level faultyVacuum FanLevel.quiet).1 =
        .error DeviceException.deviceError
    ∧ (XVCHelper.start_zone_cleaning faultyVacuum [kitchenZone]).1 =
        .error DeviceException.deviceError
    ∧ (XVCHelper.start_zone_cleaning mixedVacuum [kitchenZone]).1 =
        .error DeviceException.deviceError :=
  ⟨(xvc_c3_exception_policy faultyVacuum .deviceError).1 rfl,
   (xvc_c3_exception_policy faultyVacuum .deviceError).2.2.1 rfl,
   (xvc_c3_exception_policy faultyVacuum .deviceError).2.2.2.2.1 FanLevel.quiet rfl,
   (xvc_c3_exception_policy faultyVacuum .deviceError).2.2.2.2.2.1 [kitchenZone] rfl,
   (xvc_c3_exception_policy mixedVacuum .deviceError).2.2.2.2.2.2 [kitchenZone] ["ok"] rfl rfl⟩

/-- C5: live-adapter construction performs at most 3 discovery attempts,
raises `ConnectionError` precisely when all of the first 3 attempts
fail, and on the first successful attempt `i` succeeds immediately
after `i + 1` attempts. -/
theorem xvc_c5_construction_probe (v : Vacuum) :
    (XVCHelper.init v = .error .connectionError ↔
      v.discoverOk 0 = false ∧ v.discoverOk 1 = false ∧ v.discoverOk 2 = false)
    ∧ XVCHelper.discoveryAttempts v ≤ 3
    ∧ (∀ i, i < 3 → v.discoverOk i = true → (∀ j, j < i → v.discoverOk j = false) →
        XVCHelper.init v = .ok () ∧ XVCHelper.discoveryAttempts v = i + 1) := by
  have hr : List.range 3 = [0, 1, 2] := rfl
  refine ⟨?_, ?_, ?_⟩
  · unfold XVCHelper.init
    rw [hr]
    cases h0 : v.discoverOk 0 <;> cases h1 : v.discoverOk 1 <;> cases h2 : v.discoverOk 2 <;>
      simp [checkConnection, h0, h1, h2]
  · unfold XVCHelper.discoveryAttempts
    rw [hr]
    cases h0 : v.discoverOk 0 <;> cases h1 : v.discoverOk 1 <;> cases h2 : v.discoverOk 2 <;>
      simp [checkConnection, h0, h1, h2]
  · intro i hi htrue hprev
    unfold XVCHelper.init XVCHelper.discoveryAttempts
    rw [hr]
    interval_cases i
    · simp [checkConnection, htrue]
    · have h0 : v.discoverOk 0 = false := hprev 0 (by omega)
      simp [checkConnection, h0, htrue]
    · have h0 : v.discoverOk 0 = false := hprev 0 (by omega)
      have h1 : v.discoverOk 1 = false := hprev 1 (by omega)
      simp [checkConnection, h0, h1, htrue]

/-- C5 witness: on a vacuum whose second attempt is the first success,
construction succeeds after exactly 2 attempts; on an unreachable
vacuum it raises after 3. -/
theorem xvc_c5_construction_probe_witness :
    (XVCHelper.init sampleVacuum = .ok () ∧ XVCHelper.discoveryAttempts sampleVacuum = 2)
    ∧ XVCHelper.init faultyVacuum = .error .connectionError :=
  ⟨(xvc_c5_construction_probe sampleVacuum).2.2 1 (by decide) (by decide)
      (fun j hj => by interval_cases j; decide),
   (xvc_c5_construction_probe faultyVacuum).1.mpr ⟨rfl, rfl, rfl⟩⟩

/-- C6: each non-status live-adapter operation reports Success exactly
when the raw acknowledgment equals the single recognized success token
`['ok']`; any other acknowledgment yields Failure. -/
theorem xvc_c6_ack_success_iff (v : Vacuum) (ack : List String) :
    (v.pauseResp = .ok ack → ((XVCHelper.pause v).1 = .ok true ↔ ack = ["ok"]))
    ∧ (v.homeResp = .ok ack → ((XVCHelper.home v).1 = .ok true ↔ ack = ["ok"]))
    ∧ (∀ l, v.setFanSpeedResp (FanLevel.value l) = .ok ack →
        ((XVCHelper.set_fan_level v l).1 = .ok true ↔ ack = ["ok"]))
    ∧ (∀ zones pauseAck, v.pauseResp = .ok pauseAck →
        v.zonedCleanResp (zones.map CleaningZone.get_list) = .ok ack →
        ((XVCHelper.start_zone_cleaning v zones).1 = .ok true ↔ ack = ["ok"])) := by
  refine ⟨?_, ?_, ?_, ?_⟩
  · intro h; simp [XVCHelper.pause, h, RESPONSE_SUCCEEDED]
  · intro h; simp [XVCHelper.home, h, RESPONSE_SUCCEEDED]
  · intro l h; simp [XVCHelper.set_fan_level, h, RESPONSE_SUCCEEDED]
  · intro zones pauseAck hp hz
    simp [XVCHelper.start_zone_cleaning, XVCHelper.pause, hp, hz, RESPONSE_SUCCEEDED]

/-- C6 witness: with acknowledgment `['ok']` every operation reports
Success; with acknowledgment `['retry']` home reports Failure. -/
theorem xvc_c6_ack_success_iff_witness :
    (XVCHelper.pause sampleVacuum).1 = .ok true
    ∧ (XVCHelper.home sampleVacuum).1 = .ok true
    ∧ (XVCHelper.set_fan_level sampleVacuum FanLevel.turbo).1 = .ok true
    ∧ (XVCHelper.start_zone_cleaning sampleVacuum [kitchenZone]).1 = .ok true
    ∧ (XVCHelper.home mixedVacuum).1 ≠ .ok true :=
  ⟨((xvc_c6_ack_success_iff sampleVacuum ["ok"]).1 rfl).mpr rfl,
   ((xvc_c6_ack_success_iff sampleVacuum ["ok"]).2.1 rfl).mpr rfl,
   ((xvc_c6_ack_success_iff sampleVacuum ["ok"]).2.2.1 FanLevel.turbo rfl).mpr rfl,
   ((xvc_c6_ack_success_iff sampleVacuum ["ok"]).2.2.2 [kitchenZone] ["ok"] rfl rfl).mpr rfl,
   fun hc => by
     have := ((xvc_c6_ack_success_iff mixedVacuum ["retry"]).2.1 rfl).mp hc
     simp at this⟩

/-- C4 (counterexample): the claim fails for SetFanLevel — with an
adapter whose `set_fan_level` returns Failure, the SelectFan handler
still moves the session to SelectZone with the `'Select zone!'` reply
and never replies `'Error'`: the failure is ignored, the session is not
cleared. -/
theorem xvc_c4_setfanlevel_counterexample :
    (step failBot 110086856 (some ConvState.selectFan) (Msg.text "Turbo")).next
        = some ConvState.selectZone
    ∧ Event.reply "Error" Markup.removeKeyboard
        ∉ (step failBot 110086856 (some ConvState.selectFan) (Msg.text "Turbo")).events
    ∧ Event.reply "Select zone!" (Markup.keyboard (zoneTitles failBot))
        ∈ (step failBot 110086856 (some ConvState.selectFan) (Msg.text "Turbo")).events := by
  refine ⟨by decide, by decide, by decide⟩

/-- C4 (amended): a Failure from GetStatus, ReturnHome or
StartZoneCleaning makes the handler reply exactly `'Error'` and end the
session; the SetFanLevel result, however, is discarded by the SelectFan
handler, which proceeds to SelectZone with the `'Select zone!'` reply
regardless of success or failure. -/
theorem xvc_c4_failure_error_reply (bot : XVCBot) :
    (bot.vacuum.statusRes.1 = false →
      XVCBot.status bot =
        { next := none,
          events := [Event.devCall DeviceOp.getStatus,
                     Event.reply "Error" Markup.removeKeyboard],
          err := none })
    ∧ (bot.vacuum.homeRes = false →
      XVCBot.home bot =
        { next := none,
          events := [Event.devCall DeviceOp.home,
                     Event.reply "Error" Markup.removeKeyboard],
          err := none })
    ∧ (∀ zone rects, zoneLookup bot.zones (asciiUpper zone) = some rects →
        bot.vacuum.startZoneRes rects = false →
        XVCBot.cleaning bot zone =
          { next := none,
            events := [Event.devCall (DeviceOp.startZoneCleaning rects),
                       Event.reply "Error" Markup.removeKeyboard],
            err := none })
    ∧ (∀ level l, FanLevel.fromName level = some l →
        XVCBot.select_zone bot level =
          { next := some ConvState.selectZone,
            events := [Event.devCall (DeviceOp.setFanLevel l),
                       Event.reply "Select zone!" (Markup.keyboard (zoneTitles bot))],
            err := none }) := by
  refine ⟨?_, ?_, ?_, ?_⟩
  · intro h; simp [XVCBot.status, finishEvents, h]
  · intro h; simp [XVCBot.home, finishEvents, h]
  · intro zone rects hz h; simp [XVCBot.cleaning, finishEvents, hz, h]
  · intro level l hl; simp [XVCBot.select_zone, hl]

/-- C4 witness: the amended failure behavior at the all-failure bot. -/
theorem xvc_c4_failure_error_reply_witness :
    XVCBot.status failBot =
      { next := none,
        events := [Event.devCall DeviceOp.getStatus,
                   Event.reply "Error" Markup.removeKeyboard],
        err := none }
    ∧ XVCBot.home failBot =
      { next := none,
        events := [Event.devCall DeviceOp.home,
                   Event.reply "Error" Markup.removeKeyboard],
        err := none }
    ∧ XVCBot.cleaning failBot "Kitchen" =
      { next := none,
        events := [Event.devCall (DeviceOp.startZoneCleaning [kitchenZone]),
                   Event.reply "Error" Markup.removeKeyboard],
        err := none }
    ∧ XVCBot.select_zone failBot "Turbo" =
      { next := some ConvState.selectZone,
        events := [Event.devCall (DeviceOp.setFanLevel FanLevel.turbo),
                   Event.reply "Select zone!" (Markup.keyboard (zoneTitles failBot))],
        err := none } :=
  ⟨(xvc_c4_failure_error_reply failBot).1 rfl,
   (xvc_c4_failure_error_reply failBot).2.1 rfl,
   (xvc_c4_failure_error_reply failBot).2.2.1 "Kitchen" [kitchenZone] (by decide) rfl,
   (xvc_c4_failure_error_reply failBot).2.2.2 "Turbo" FanLevel.turbo (by decide)⟩

/-- C7: a session reaches SelectZone only through a SelectFan step whose
input is a known fan-level name, and that step issues the SetFanLevel
device call before presenting the zone menu (the step's event list is
exactly the device call followed by the zone-menu reply). -/
theorem xvc_c7_selectzone_only_via_selectfan (bot : XVCBot) (user_id : Int) (msgs : List Msg)
    (h : runSession bot user_id msgs = some ConvState.selectZone) :
    ∃ pre t post l, msgs = pre ++ Msg.text t :: post
      ∧ runSession bot user_id pre = some ConvState.selectFan
      ∧ fanButtonNames.contains t = true
      ∧ FanLevel.fromName t = some l
      ∧ step bot user_id (some ConvState.selectFan) (Msg.text t) =
          { next := some ConvState.selectZone,
            events := [Event.devCall (DeviceOp.setFanLevel l),
                       Event.reply "Select zone!" (Markup.keyboard (zoneTitles bot))],
            err := none } := by
  induction msgs using List.reverseRecOn with
  | nil => simp [runSession, runFrom] at h
  | append_singleton ms m ih =>
    rw [runSession, runFrom_append] at h
    simp only [runFrom] at h
    rcases step_next_selectZone bot user_id (runFrom bot user_id none ms) m h with
      hsz | ⟨t, l, hsf, hm, hc, hf, hstep⟩
    · rcases ih hsz with ⟨pre, t, post, l, hdecomp, hpre, hc, hf, hstep⟩
      refine ⟨pre, t, post ++ [m], l, ?_, hpre, hc, hf, hstep⟩
      rw [hdecomp]
      simp
    · refine ⟨ms, t, [], l, by rw [hm], hsf, hc, hf, ?_⟩
      rw [hsf, hm] at hstep
      exact hstep

/-- C7 witness: the admin run start → ZoneCleaning → Turbo reaches
SelectZone, so the decomposition exists for it. -/
theorem xvc_c7_selectzone_only_via_selectfan_witness :
    ∃ pre t post l,
      ([Msg.start, Msg.text "ZoneCleaning", Msg.text "Turbo"] : List Msg)
          = pre ++ Msg.text t :: post
      ∧ runSession sampleBot 110086856 pre = some ConvState.selectFan
      ∧ fanButtonNames.contains t = true
      ∧ FanLevel.fromName t = some l
      ∧ step sampleBot 110086856 (some ConvState.selectFan) (Msg.text t) =
          { next := some ConvState.selectZone,
            events := [Event.devCall (DeviceOp.setFanLevel l),
                       Event.reply "Select zone!" (Markup.keyboard (zoneTitles sampleBot))],
            err := none } :=
  xvc_c7_selectzone_only_via_selectfan sampleBot 110086856
    [Msg.start, Msg.text "ZoneCleaning", Msg.text "Turbo"] (by decide)

/-- C8: the access guard accepts an identity exactly when it is in
`LIST_OF_ADMINS`; a rejected identity always receives the fixed denial
reply carrying that identity, never gets a session (the conversation
state stays `none` for every message sequence), and no device call is
ever performed on its behalf. -/
theorem xvc_c8_access_guard (bot : XVCBot) (user_id : Int) (msgs : List Msg) :
    (LIST_OF_ADMINS.contains user_id = false →
      runSession bot user_id msgs = none
      ∧ (∀ op, Event.devCall op ∉ runEventsFrom bot user_id none msgs)
      ∧ step bot user_id none Msg.start =
          { next := none,
            events := [Event.reply (accessDeniedMsg user_id) Markup.noMarkup],
            err := none })
    ∧ (LIST_OF_ADMINS.contains user_id = true →
      step bot user_id none Msg.start =
        { next := some ConvState.mainMenu,
          events := [Event.reply "Main menu" (Markup.keyboard MAIN_BUTTONS)],
          err := none }) := by
  constructor
  · intro h
    have h2 : user_id ∉ LIST_OF_ADMINS := by simpa using h
    refine ⟨runFrom_none_nonadmin bot user_id h msgs,
            runEvents_none_nonadmin bot user_id h msgs, ?_⟩
    simp [step, XVCBot.start, restricted, h2]
  · intro h
    have h2 : user_id ∈ LIST_OF_ADMINS := by simpa using h
    simp [step, XVCBot.start, restricted, h2]

/-- C8 witness: the non-admin identity 0 is denied with the fixed
message and never obtains a session; the admin identity 110086856 is
accepted into MainMenu. -/
theorem xvc_c8_access_guard_witness :
    runSession sampleBot 0 [Msg.start, Msg.text "Status"] = none
    ∧ step sampleBot 0 none Msg.start =
        { next := none,
          events := [Event.reply (accessDeniedMsg 0) Markup.noMarkup],
          err := none }
    ∧ step sampleBot 110086856 none Msg.start =
        { next := some ConvState.mainMenu,
          events := [Event.reply "Main menu" (Markup.keyboard MAIN_BUTTONS)],
          err := none } :=
  ⟨((xvc_c8_access_guard sampleBot 0 [Msg.start, Msg.text "Status"]).1 (by decide)).1,
   ((xvc_c8_access_guard sampleBot 0 [Msg.start, Msg.text "Status"]).1 (by decide)).2.2,
   (xvc_c8_access_guard sampleBot 110086856 [Msg.start]).2 (by decide)⟩

/-- C9 (counterexample): with the registry key stored as `"Kitchen"`,
the zone keyboard label (and hence guard-accepted input) is
`"Kitchen"`, but the handler looks up `"KITCHEN"`, which is not a key:
the dict indexing raises an unhandled `KeyError`. -/
theorem xvc_c9_title_key_counterexample :
    (zoneTitles titleBot).contains "Kitchen" = true
    ∧ step titleBot 110086856 (some ConvState.selectZone) (Msg.text "Kitchen") =
        { next := some ConvState.selectZone, events := [], err := some PyErr.keyError } := by
  refine ⟨by decide, by decide⟩

/-- C9 (amended): the SelectZone handler upper-cases the input and
indexes the registry with it; when the upper-cased input is not a
registry key the indexing raises an unhandled `KeyError` (as happens
for a title-case key such as `"Kitchen"`), and when it is a key the
handler proceeds without exception; in particular, if every registry
key equals its own upper-casing, the lookup succeeds without exception
for every guard-accepted input. -/
theorem xvc_c9_uppercase_keys_lookup (bot : XVCBot) (t : String) :
    (zoneLookup bot.zones (asciiUpper t) = none →
      XVCBot.cleaning bot t =
        { next := none, events := [], err := some PyErr.keyError })
    ∧ (∀ rects, zoneLookup bot.zones (asciiUpper t) = some rects →
      (XVCBot.cleaning bot t).err = none)
    ∧ ((∀ k ∈ bot.zones.map Prod.fst, asciiUpper k = k) → t ∈ zoneTitles bot →
      ∃ rects, zoneLookup bot.zones (asciiUpper t) = some rects
        ∧ (XVCBot.cleaning bot t).err = none) := by
  refine ⟨?_, ?_, ?_⟩
  · intro h
    simp [XVCBot.cleaning, h]
  · intro rects h
    simp [XVCBot.cleaning, h]
  · intro hkeys ht
    simp only [zoneTitles, List.mem_map] at ht
    rcases ht with ⟨⟨k, zs⟩, hmem, hk⟩
    subst hk
    have hkey : k ∈ bot.zones.map Prod.fst := List.mem_map_of_mem Prod.fst hmem
    have hup : asciiUpper (asciiTitle k) = k := by
      rw [asciiUpper_asciiTitle]
      exact hkeys k hkey
    rcases zoneLookup_isSome bot.zones k hkey with ⟨r, hr⟩
    refine ⟨r, by rw [hup]; exact hr, ?_⟩
    rw [XVCBot.cleaning, hup, hr]

/-- C9 witness: with the title-case registry key `"Kitchen"` the
guard-accepted input `"Kitchen"` raises `KeyError`; with the upper-case
registry key `"KITCHEN"` the same input is looked up without
exception. -/
theorem xvc_c9_uppercase_keys_lookup_witness :
    XVCBot.cleaning titleBot "Kitchen" =
      { next := none, events := [], err := some PyErr.keyError }
    ∧ (XVCBot.cleaning sampleBot "Kitchen").err = none
    ∧ (∃ rects, zoneLookup sampleBot.zones (asciiUpper "Kitchen") = some rects
        ∧ (XVCBot.cleaning sampleBot "Kitchen").err = none) :=
  ⟨(xvc_c9_uppercase_keys_lookup titleBot "Kitchen").1 (by decide),
   (xvc_c9_uppercase_keys_lookup sampleBot "Kitchen").2.1 [kitchenZone] (by decide),
   (xvc_c9_uppercase_keys_lookup sampleBot "Kitchen").2.2 (by decide) (by decide)⟩

/-- C10: from each non-terminal state (MainMenu, SelectFan, SelectZone)
the cancel command yields exactly the `'Canceled...'` reply with the
keyboard removed, and clears the session. -/
theorem xvc_c10_cancel_always_ends (bot : XVCBot) (user_id : Int) (s : ConvState) :
    step bot user_id (some s) Msg.cancel =
      { next := none,
        events := [Event.reply "Canceled..." Markup.removeKeyboard],
        err := none } := by
  cases s <;> rfl

end XVC
